import Mathlib

/-!
Shallow embedding of `src/src/components/EasyTierDashboard.tsx`, the single
source file of the `easy-tier-dashboard-beautifier` repository.

Modelling conventions:
- JavaScript numbers that the component manipulates (byte counters,
  latencies) are embedded as exact rationals `ℚ`; the concrete values the
  component handles are exactly representable, so no floating-point
  rounding is modelled.
- `Number.prototype.toFixed(f)` (ECMAScript): extract the sign, then pick
  the integer `n` minimising the distance of `n / 10^f` to the magnitude,
  ties resolved upward, i.e. `n = ⌊|x| * 10^f + 1/2⌋`.  It is embedded on a
  numerator/denominator pair by `jsToFixed` (pure natural-number
  arithmetic, so the kernel can evaluate it) and characterised against the
  value-level description by `jsToFixed_eq_val`.
- JavaScript string truthiness: a string is falsy exactly when it is empty.
- React state updates (`setNodes`, `setError`, ...) are explicit record
  updates of a `DisplayState` value; toast invocations are collected in an
  output list.
-/

/-- The decimal digit character for a digit value below ten. -/
def digitChar (d : ℕ) : Char :=
  match d with
  | 0 => '0' | 1 => '1' | 2 => '2' | 3 => '3' | 4 => '4'
  | 5 => '5' | 6 => '6' | 7 => '7' | 8 => '8' | 9 => '9'
  | _ => '*'

/-- Fuel-driven accumulator loop producing the decimal digits of a natural
number, most significant first (the fuel is an upper bound on the number of
digits, supplied by `natToString`). -/
def natDigitsAux : ℕ → ℕ → List Char → List Char
  | 0, _, acc => acc
  | fuel + 1, n, acc =>
    if n < 10 then digitChar n :: acc
    else natDigitsAux fuel (n / 10) (digitChar (n % 10) :: acc)

/-- Decimal rendering of a natural number, as JavaScript string
interpolation produces for a non-negative integer. -/
def natToString (n : ℕ) : String := ⟨natDigitsAux (n + 1) n []⟩

/-- Exactly `f` decimal digit characters for `m` modulo `10 ^ f`, most
significant first: the padded fractional part of `toFixed(f)`. -/
def fracDigits : ℕ → ℕ → List Char
  | 0, _ => []
  | k + 1, m => fracDigits k (m / 10) ++ [digitChar (m % 10)]

/-- Embedding of `Number.prototype.toFixed f` applied to the rational
`num / den` (with `den > 0` at every use site): sign of the numerator,
integer part, decimal point, and `f` padded fractional digits, where
`n` rounds `|num / den| * 10 ^ f` to the nearest integer, ties upward. -/
def jsToFixed (f : ℕ) (num : ℤ) (den : ℕ) : String :=
  (if num < 0 then "-" else "")
    ++ natToString ((2 * num.natAbs * 10 ^ f + den) / (2 * den) / 10 ^ f)
    ++ "."
    ++ ⟨fracDigits f ((2 * num.natAbs * 10 ^ f + den) / (2 * den) % 10 ^ f)⟩

/-- Value-level description of `Number.prototype.toFixed f` on a rational
`q`: the same string expressed through `Nat.floor` of `|q| * 10 ^ f + 1/2`
rather than through numerator/denominator arithmetic. -/
def jsToFixedVal (f : ℕ) (q : ℚ) : String :=
  (if q < 0 then "-" else "")
    ++ natToString (⌊|q| * 10 ^ f + 1 / 2⌋₊ / 10 ^ f)
    ++ "."
    ++ ⟨fracDigits f (⌊|q| * 10 ^ f + 1 / 2⌋₊ % 10 ^ f)⟩

/-- Embedding of `formatToMB` (source lines 56-59):
`if (!bytes) return '0.00'; return (bytes / (1024 * 1024)).toFixed(2);`.
A falsy byte count (the number `0`) short-circuits to `"0.00"`; otherwise
the count is divided by `1024 * 1024` and fixed to two decimals.  The
division is carried out on the numerator/denominator pair
(`bytes = bytes.num / bytes.den`, so `bytes / 2^20 = bytes.num /
(bytes.den * 2^20)`); `jsToFixed_eq_val` below proves the pair-level
computation equal to the value-level `toFixed 2` of the quotient. -/
def formatToMB (bytes : ℚ) : String :=
  if bytes = 0 then "0.00"
  else jsToFixed 2 bytes.num (bytes.den * (1024 * 1024))

/-- Embedding of the inline latency rendering (source line 239):
`node.latency_ms > 0 ? node.latency_ms.toFixed(1) : '-'`. -/
def formatLatency (latency_ms : ℚ) : String :=
  if 0 < latency_ms then jsToFixed 1 latency_ms.num latency_ms.den else "-"

/-- Embedding of the inline virtual-IP cleanup (source line 238):
`(node.virtual_ip || '').split('/')[0]`, i.e. the part of the string before
the first `'/'` (the whole string when no `'/'` occurs; `'' || ''` is
`''`). -/
def cleanIp (virtual_ip : String) : String :=
  ⟨virtual_ip.data.takeWhile (fun c => c != '/')⟩

/-- Whether `pat` occurs at the head of `l` (helper for `containsStr`). -/
def matchesAt : List Char → List Char → Bool
  | [], _ => true
  | _ :: _, [] => false
  | p :: ps, c :: cs => p == c && matchesAt ps cs

/-- Whether `pat` occurs contiguously anywhere in `l`. -/
def containsSub (pat : List Char) : List Char → Bool
  | [] => matchesAt pat []
  | c :: cs => matchesAt pat (c :: cs) || containsSub pat cs

/-- Embedding of `String.prototype.includes`: substring containment. -/
def containsStr (s pat : String) : Bool := containsSub pat.data s.data

/-- Embedding of `String.prototype.toLowerCase` (the strings the component
lowers are ASCII, where per-character lowering is exact). -/
def toLowerStr (s : String) : String := ⟨s.data.map Char.toLower⟩

/-- The visual result of `createStatusBadge`: one of the three themed
badges, or the plain outline badge carrying its text. -/
inductive BadgeView where
  | localLink
  | p2pDirect
  | relayForward
  | plain (text : String)
deriving DecidableEq, Repr

/-- Embedding of `createStatusBadge` (source lines 42-54):
`const mode = (cost || 'unknown').toLowerCase();` followed by three
`mode.includes` tests in the order `'local'`, `'p2p'`, `'relay'`, and the
fallback badge `{cost || '-'}`. -/
def createStatusBadge (cost : String) : BadgeView :=
  let mode := toLowerStr (if cost = "" then "unknown" else cost)
  if containsStr mode "local" then .localLink
  else if containsStr mode "p2p" then .p2pDirect
  else if containsStr mode "relay" then .relayForward
  else .plain (if cost = "" then "-" else cost)

/-- Connection-mode classification as the specification words it:
case-insensitive substring match against `cost`, checked in the fixed
order local, then p2p, then relay, first match winning; otherwise fall
back to the raw value, or a placeholder when the string is empty. -/
def classifyConnectionModeSpec (cost : String) : BadgeView :=
  if containsStr (toLowerStr cost) "local" then .localLink
  else if containsStr (toLowerStr cost) "p2p" then .p2pDirect
  else if containsStr (toLowerStr cost) "relay" then .relayForward
  else if cost = "" then .plain "-" else .plain cost

/-- The `Node` record interface (source lines 22-30), received verbatim
from the backend. -/
structure Node where
  virtual_ip : String
  public_addr : String
  cost : String
  latency_ms : ℚ
  rx_bytes : ℚ
  tx_bytes : ℚ
  conn_type : String
deriving DecidableEq, Repr

/-- The component's React state (source lines 36-39): `nodes`, `loading`,
`error`, `lastUpdate`.  The update timestamp is embedded as an abstract
natural-number clock value. -/
structure DisplayState where
  nodes : List Node
  loading : Bool
  error : Option String
  lastUpdate : Option ℕ
deriving DecidableEq, Repr

/-- The initial state at mount: `useState<Node[]>([])`, `useState(true)`,
`useState<string | null>(null)`, `useState<Date | null>(null)`. -/
def initialState : DisplayState :=
  { nodes := [], loading := true, error := none, lastUpdate := none }

/-- One `toast({...})` invocation (source lines 91-95). -/
structure Toast where
  title : String
  description : String
  variant : String
deriving DecidableEq, Repr

/-- Parsed JSON body of a 2xx response, as the component reads it by
duck-typed field access: the node array (`setNodes(data)`), and the
`error` / `details` fields tested for truthiness (`data.error`,
`data.details || data.error`).  A field that is absent or empty-string is
embedded as `""` (both are falsy, and the component only branches on
truthiness and interpolates the value). -/
structure ParsedBody where
  arr : List Node
  error : String
  details : String
deriving DecidableEq, Repr

/-- How one poll's `fetch` settles: `reject msg` is a rejected promise
(network failure, or the 5000 ms abort) carrying the thrown error's
message; `resolve status body` is a response with the given HTTP status
whose body parsed to `body`. -/
inductive FetchResult where
  | reject (msg : String)
  | resolve (status : ℕ) (body : ParsedBody)
deriving DecidableEq, Repr

/-- The Fetch API's `Response.ok`: status in the inclusive range 200-299. -/
def respOk (status : ℕ) : Bool := 200 ≤ status && status ≤ 299

/-- The `catch` block of `fetchNodes` (source lines 87-96): set the error
message, clear the loading flag, and emit one destructive toast titled
"连接失败" carrying the message. -/
def failPath (st : DisplayState) (msg : String) : DisplayState × List Toast :=
  ({ st with error := some msg, loading := false },
   [{ title := "连接失败", description := msg, variant := "destructive" }])

/-- The part of `fetchNodes` that runs before the request is issued
(source line 63): `setError(null)`. -/
def fetchNodesStart (st : DisplayState) : DisplayState := { st with error := none }

/-- The part of `fetchNodes` from the settling of `fetch` onward (source
lines 67-96): a rejected promise lands in the catch block; a response with
`!response.ok` throws `API 响应错误: <status>`; a parsed body with truthy
`data.error` throws `后端错误: <data.details || data.error>`; otherwise
`setNodes(data)`, `setLastUpdate(new Date())`, `setLoading(false)`. -/
def fetchNodesResolve (st : DisplayState) (r : FetchResult) (now : ℕ) :
    DisplayState × List Toast :=
  match r with
  | .reject msg => failPath st msg
  | .resolve status body =>
    if !respOk status then failPath st ("API 响应错误: " ++ natToString status)
    else if body.error != "" then
      failPath st ("后端错误: " ++ (if body.details != "" then body.details else body.error))
    else
      ({ st with nodes := body.arr, lastUpdate := some now, loading := false }, [])

/-- One complete run of `fetchNodes` (source lines 61-97) on a state, given
how the request settles and the clock value read by `new Date()`. -/
def fetchNodes (st : DisplayState) (r : FetchResult) (now : ℕ) :
    DisplayState × List Toast :=
  fetchNodesResolve (fetchNodesStart st) r now

/-- Whether a settled request takes the failure path of `fetchNodes`: a
rejected promise, a non-2xx status, or a 2xx body with a truthy `error`
field. -/
def failingResult : FetchResult → Bool
  | .reject _ => true
  | .resolve status body => !respOk status || body.error != ""

/-- The synchronous part of `handleRefresh` (source lines 99-102) up to the
point where its `fetchNodes()` call has cleared the error field:
`setLoading(true)` followed by the pre-request part of `fetchNodes`. -/
def handleRefreshStart (st : DisplayState) : DisplayState :=
  fetchNodesStart { st with loading := true }

/-- One complete run of `handleRefresh` (source lines 99-102):
`setLoading(true); fetchNodes();`. -/
def handleRefresh (st : DisplayState) (r : FetchResult) (now : ℕ) :
    DisplayState × List Toast :=
  fetchNodes { st with loading := true } r now

/-- One rendered table row (source lines 237-286): the formatted cells
computed from a node. -/
structure NodeRow where
  ip : String
  host : String
  badge : BadgeView
  latency : String
  rx : String
  tx : String
  tunnel : String
deriving DecidableEq, Repr

/-- The row the table body renders for one node (source lines 237-286):
`cleanIp`, `node.public_addr || '-'`, `createStatusBadge(node.cost)`, the
latency ternary, `formatToMB` of both byte counters, and
`node.conn_type || '-'`. -/
def renderRow (node : Node) : NodeRow :=
  { ip := cleanIp node.virtual_ip
  , host := if node.public_addr = "" then "-" else node.public_addr
  , badge := createStatusBadge node.cost
  , latency := formatLatency node.latency_ms
  , rx := formatToMB node.rx_bytes
  , tx := formatToMB node.tx_bytes
  , tunnel := if node.conn_type = "" then "-" else node.conn_type }

/-- The table body: `nodes.map((node, index) => ...)` (source line 237). -/
def renderRows (nodes : List Node) : List NodeRow := nodes.map renderRow

/-- JavaScript truthiness of the `error` state field (`string | null`):
truthy exactly when it holds a non-empty string. -/
def strTruthy (s : Option String) : Bool :=
  match s with
  | none => false
  | some m => m != ""

/-- The four alternatives of the main-content area (source lines 159-293). -/
inductive RenderBranch where
  | errorPanel (message : String) (hasRetry : Bool)
  | loadingPanel
  | emptyPanel
  | nodesTable (rows : List NodeRow)
deriving DecidableEq, Repr

/-- The main-content conditional chain (source lines 159-293):
`error ? <error panel with retry> : loading ? <spinner> :
nodes.length === 0 ? <empty panel> : <table>`.  Note the first test is
JavaScript truthiness of `error`, not a null comparison. -/
def renderMain (st : DisplayState) : RenderBranch :=
  if strTruthy st.error then .errorPanel (st.error.getD "") true
  else if st.loading then .loadingPanel
  else if st.nodes.length = 0 then .emptyPanel
  else .nodesTable (renderRows st.nodes)

/-- A sample node with exactly representable telemetry, used by concrete
witnesses. -/
def sampleNode : Node :=
  { virtual_ip := "10.0.0.5/24"
  , public_addr := "203.0.113.7"
  , cost := "p2p"
  , latency_ms := mkRat 12345 1000
  , rx_bytes := mkRat 1048576 1
  , tx_bytes := 0
  , conn_type := "udp" }

/-- A sample state holding one node and a stale error message, used by
concrete witnesses. -/
def sampleState : DisplayState :=
  { nodes := [sampleNode], loading := false
  , error := some "old failure", lastUpdate := some 41 }

/-- A state whose error field holds `some ""`: non-null, but falsy for the
JavaScript conditional `error ? ... : ...`. -/
def emptyErrorState : DisplayState :=
  { nodes := [sampleNode], loading := false, error := some "", lastUpdate := none }

/-! Helper lemmas about the decimal-rendering helpers. -/

theorem natDigitsAux_length_le :
    ∀ (fuel n : ℕ) (acc : List Char),
      acc.length ≤ (natDigitsAux fuel n acc).length := by
  intro fuel
  induction fuel with
  | zero => intro n acc; simp [natDigitsAux]
  | succ k ih =>
    intro n acc
    unfold natDigitsAux
    by_cases h : n < 10
    · simp [h]
    · simp only [h, if_false]
      exact le_trans (by simp) (ih (n / 10) (digitChar (n % 10) :: acc))

theorem one_le_natToString_length (n : ℕ) : 1 ≤ (natToString n).length := by
  have hlen : (natToString n).length = (natDigitsAux (n + 1) n []).length := rfl
  rw [hlen]
  unfold natDigitsAux
  by_cases h : n < 10
  · simp [h]
  · simp only [h, if_false]
    exact le_trans (by simp) (natDigitsAux_length_le n (n / 10) [digitChar (n % 10)])

theorem fracDigits_length (f : ℕ) : ∀ m, (fracDigits f m).length = f := by
  induction f with
  | zero => intro m; rfl
  | succ k ih => intro m; simp [fracDigits, ih]

theorem two_le_jsToFixed_length (f : ℕ) (a : ℤ) (b : ℕ) :
    2 ≤ (jsToFixed f a b).length := by
  have h1 := one_le_natToString_length ((2 * a.natAbs * 10 ^ f + b) / (2 * b) / 10 ^ f)
  have hdot : ("." : String).length = 1 := rfl
  unfold jsToFixed
  rw [String.length_append, String.length_append, String.length_append, hdot]
  omega

theorem jsToFixed_ne_dash (f : ℕ) (a : ℤ) (b : ℕ) : jsToFixed f a b ≠ "-" := by
  intro h
  have h2 := two_le_jsToFixed_length f a b
  rw [h] at h2
  have hdash : ("-" : String).length = 1 := rfl
  omega

theorem jsToFixed_eq_val (f : ℕ) (a : ℤ) (b : ℕ) (hb : 0 < b) :
    jsToFixed f a b = jsToFixedVal f ((a : ℚ) / (b : ℚ)) := by
  have hbq : (0 : ℚ) < (b : ℚ) := by exact_mod_cast hb
  have hsign : ((a : ℚ) / (b : ℚ) < 0) ↔ a < 0 := by
    constructor
    · intro hneg
      by_contra hge
      exact absurd (div_nonneg (by exact_mod_cast not_lt.mp hge) hbq.le)
        (not_le.mpr hneg)
    · intro ha
      exact div_neg_of_neg_of_pos (by exact_mod_cast ha) hbq
  have habs : |(a : ℚ) / (b : ℚ)| = ((a.natAbs : ℕ) : ℚ) / (b : ℚ) := by
    rw [abs_div, abs_of_pos hbq, Nat.cast_natAbs, Int.cast_abs]
  have hfloor : ⌊|(a : ℚ) / (b : ℚ)| * 10 ^ f + 1 / 2⌋₊
      = (2 * a.natAbs * 10 ^ f + b) / (2 * b) := by
    rw [habs]
    have heq : ((a.natAbs : ℕ) : ℚ) / (b : ℚ) * 10 ^ f + 1 / 2
        = ((2 * a.natAbs * 10 ^ f + b : ℕ) : ℚ) / ((2 * b : ℕ) : ℚ) := by
      push_cast
      field_simp
      ring
    rw [heq, Nat.floor_div_eq_div]
  unfold jsToFixed jsToFixedVal
  rw [hfloor]
  simp only [hsign]

/-! Helper lemmas about `takeWhile` and `dropWhile` at the slash test. -/

theorem dropWhile_slash_head (l : List Char) :
    (l.dropWhile (fun c => c != '/')).head? = none
    ∨ (l.dropWhile (fun c => c != '/')).head? = some '/' := by
  induction l with
  | nil => exact Or.inl rfl
  | cons c cs ih =>
    by_cases hc : c = '/'
    · subst hc
      right
      rw [List.dropWhile_cons]
      simp
    · rw [List.dropWhile_cons]
      simpa [hc] using ih

theorem takeWhile_slash_eq_self {l : List Char} (h : '/' ∉ l) :
    l.takeWhile (fun c => c != '/') = l := by
  induction l with
  | nil => rfl
  | cons c cs ih =>
    have hc : c ≠ '/' := fun hcc => h (hcc ▸ List.mem_cons_self c cs)
    have hcs : '/' ∉ cs := fun hm => h (List.mem_cons_of_mem _ hm)
    rw [List.takeWhile_cons]
    simp [hc, ih hcs]

/-! The claims. -/

/-- C1, counterexample: the claim says every negative input renders as
`"0.00"`, but `-1048576` is truthy in JavaScript, so `formatToMB` divides
and fixes it, producing `"-1.00"`. -/
theorem formatToMB_neg_counterexample :
    formatToMB (mkRat (-1048576) 1) = "-1.00"
    ∧ formatToMB (mkRat (-1048576) 1) ≠ "0.00" :=
  ⟨by decide, by decide⟩

/-- C1 (amended): `formatToMB` divides by 1,048,576 and fixes to two
decimal places, with `formatToMB 0 = "0.00"` and
`formatToMB 1048576 = "1.00"`; a falsy (zero) input returns `"0.00"`, but
a negative input is truthy and goes through the division, e.g.
`formatToMB (-5) = "-0.00"` and `formatToMB (-1048576) = "-1.00"`. -/
theorem formatToMB_behavior :
    formatToMB 0 = "0.00"
    ∧ formatToMB 1048576 = "1.00"
    ∧ (∀ bytes : ℚ, bytes ≠ 0 →
        formatToMB bytes = jsToFixedVal 2 (bytes / (1024 * 1024)))
    ∧ formatToMB (mkRat (-5) 1) = "-0.00"
    ∧ formatToMB (mkRat (-1048576) 1) = "-1.00" := by
  refine ⟨by decide, by decide, fun bytes hb => ?_, by decide, by decide⟩
  unfold formatToMB
  rw [if_neg hb,
    jsToFixed_eq_val 2 bytes.num (bytes.den * (1024 * 1024))
      (Nat.mul_pos bytes.den_pos (by norm_num))]
  congr 1
  push_cast
  rw [← div_div, Rat.num_div_den]
  norm_num

/-- C1 witness: the division conjunct of `formatToMB_behavior` applied at
the concrete byte count 3. -/
theorem formatToMB_behavior_witness :
    formatToMB (mkRat 3 1) = jsToFixedVal 2 (mkRat 3 1 / (1024 * 1024)) :=
  formatToMB_behavior.2.2.1 (mkRat 3 1) (by decide)

/-- C2: `createStatusBadge` classifies a cost string by case-insensitive
substring match in the fixed priority order local, p2p, relay (first match
wins), falling back to the raw value, or the placeholder dash when the
string is empty; in particular `"P2P-Relay"` classifies as p2p. -/
theorem createStatusBadge_classification :
    (∀ cost : String, createStatusBadge cost = classifyConnectionModeSpec cost)
    ∧ createStatusBadge "P2P-Relay" = BadgeView.p2pDirect
    ∧ createStatusBadge "" = BadgeView.plain "-" := by
  refine ⟨fun cost => ?_, by decide, by decide⟩
  by_cases h : cost = ""
  · subst h; decide
  · simp [createStatusBadge, classifyConnectionModeSpec, h]

/-- C3: for every failing poll (rejected request, non-2xx status, or
backend-signalled error) the refresh sets the error message, clears the
loading flag, leaves the node list unchanged, and emits exactly one toast
carrying the failure reason. -/
theorem fetchNodes_failure_behavior :
    ∀ (st : DisplayState) (r : FetchResult) (now : ℕ),
      failingResult r = true →
      (fetchNodes st r now).1.nodes = st.nodes
      ∧ (fetchNodes st r now).1.loading = false
      ∧ ∃ msg, (fetchNodes st r now).1.error = some msg
          ∧ (fetchNodes st r now).2
              = [{ title := "连接失败", description := msg, variant := "destructive" }] := by
  intro st r now hfail
  cases r with
  | reject msg => exact ⟨rfl, rfl, msg, rfl, rfl⟩
  | resolve status body =>
    cases hok : respOk status with
    | false =>
      unfold fetchNodes fetchNodesResolve fetchNodesStart failPath
      simp [hok]
    | true =>
      have herr : (body.error != "") = true := by
        simpa [failingResult, hok] using hfail
      unfold fetchNodes fetchNodesResolve fetchNodesStart failPath
      simp [hok, herr]

/-- C3 witness: `fetchNodes_failure_behavior` at a concrete state and a
concrete rejected request. -/
theorem fetchNodes_failure_behavior_witness :
    (fetchNodes sampleState (.reject "network down") 99).1.nodes = sampleState.nodes
    ∧ (fetchNodes sampleState (.reject "network down") 99).1.loading = false
    ∧ ∃ msg, (fetchNodes sampleState (.reject "network down") 99).1.error = some msg
        ∧ (fetchNodes sampleState (.reject "network down") 99).2
            = [{ title := "连接失败", description := msg, variant := "destructive" }] :=
  fetchNodes_failure_behavior sampleState (.reject "network down") 99 (by decide)

/-- C4: for every successful poll the state is replaced wholesale — nodes
become exactly the parsed array, error is null, the update time is
stamped, loading is cleared, no toast fires — and the rendered rows are
the image of the response array under `renderRow`, preserving length and
order. -/
theorem fetchNodes_success_behavior :
    ∀ (st : DisplayState) (body : ParsedBody) (status now i : ℕ),
      respOk status = true → body.error = "" →
      fetchNodes st (.resolve status body) now
        = ({ nodes := body.arr, loading := false, error := none,
             lastUpdate := some now }, [])
      ∧ (renderRows body.arr).length = body.arr.length
      ∧ (renderRows body.arr)[i]? = (body.arr[i]?).map renderRow := by
  intro st body status now i hok herr
  refine ⟨?_, by simp [renderRows], by simp [renderRows]⟩
  unfold fetchNodes fetchNodesResolve fetchNodesStart
  simp [hok, herr]

/-- C4 witness: `fetchNodes_success_behavior` at a concrete state and a
concrete 200 response carrying one node. -/
theorem fetchNodes_success_behavior_witness :
    fetchNodes sampleState (.resolve 200 ⟨[sampleNode], "", ""⟩) 7
      = ({ nodes := [sampleNode], loading := false, error := none,
           lastUpdate := some 7 }, [])
    ∧ (renderRows [sampleNode]).length = ([sampleNode] : List Node).length
    ∧ (renderRows [sampleNode])[0]? = (([sampleNode] : List Node)[0]?).map renderRow :=
  fetchNodes_success_behavior sampleState ⟨[sampleNode], "", ""⟩ 200 7 0 rfl rfl

/-- C5: the refresh fails with the HTTP-status error exactly when the
status is not successful; with a successful status it fails with the
backend error built from the body's error marker (details preferred over
error) when that marker is truthy, and does not fail otherwise. -/
theorem fetchNodes_error_channels :
    ∀ (st : DisplayState) (status : ℕ) (body : ParsedBody) (now : ℕ),
      (respOk status = false →
        (fetchNodes st (.resolve status body) now).1.error
          = some ("API 响应错误: " ++ natToString status))
      ∧ (respOk status = true → body.error ≠ "" →
        (fetchNodes st (.resolve status body) now).1.error
          = some ("后端错误: "
              ++ (if body.details != "" then body.details else body.error)))
      ∧ (respOk status = true → body.error = "" →
        (fetchNodes st (.resolve status body) now).1.error = none) := by
  intro st status body now
  refine ⟨fun hok => ?_, fun hok herr => ?_, fun hok herr => ?_⟩ <;>
    unfold fetchNodes fetchNodesResolve fetchNodesStart failPath <;>
    simp [hok]
  · simp [herr]
  · simp [herr]

/-- C5 witness: `fetchNodes_error_channels` at a concrete 500 response, a
concrete 200 response with error and details fields, and a concrete clean
200 response. -/
theorem fetchNodes_error_channels_witness :
    (fetchNodes sampleState (.resolve 500 ⟨[], "", ""⟩) 3).1.error
      = some ("API 响应错误: " ++ natToString 500)
    ∧ (fetchNodes sampleState (.resolve 200 ⟨[], "boom", "detail text"⟩) 3).1.error
      = some ("后端错误: "
          ++ (if ("detail text" : String) != "" then "detail text" else "boom"))
    ∧ (fetchNodes sampleState (.resolve 200 ⟨[], "", ""⟩) 3).1.error = none :=
  ⟨(fetchNodes_error_channels sampleState 500 ⟨[], "", ""⟩ 3).1 rfl,
   (fetchNodes_error_channels sampleState 200 ⟨[], "boom", "detail text"⟩ 3).2.1
     rfl (by decide),
   (fetchNodes_error_channels sampleState 200 ⟨[], "", ""⟩ 3).2.2 rfl rfl⟩

/-- C6, counterexample: the claim says a non-null error always renders the
error panel, but the source tests JavaScript truthiness (`error ? ...`),
so the state holding `some ""` — non-null — renders the table instead. -/
theorem renderMain_truthiness_counterexample :
    emptyErrorState.error ≠ none
    ∧ renderMain emptyErrorState
        = RenderBranch.nodesTable (renderRows emptyErrorState.nodes) :=
  ⟨by decide, by decide⟩

/-- C6 (amended): for every `DisplayState` exactly one of the four render
branches is selected, in this priority: a truthy (non-null and non-empty)
error renders the error panel with a retry button; else a set loading
flag renders the spinner; else an empty node list renders the empty-state
panel; else the full table.  (A `some ""` error is non-null but falsy, and
behaves as no error.) -/
theorem renderMain_branches :
    ∀ st : DisplayState,
      (renderMain st = RenderBranch.errorPanel (st.error.getD "") true
        ↔ strTruthy st.error = true)
      ∧ (renderMain st = RenderBranch.loadingPanel
        ↔ (strTruthy st.error = false ∧ st.loading = true))
      ∧ (renderMain st = RenderBranch.emptyPanel
        ↔ (strTruthy st.error = false ∧ st.loading = false ∧ st.nodes = []))
      ∧ (renderMain st = RenderBranch.nodesTable (renderRows st.nodes)
        ↔ (strTruthy st.error = false ∧ st.loading = false ∧ st.nodes ≠ [])) := by
  intro st
  unfold renderMain
  cases hts : strTruthy st.error with
  | true => simp [hts]
  | false =>
    cases hl : st.loading with
    | true => simp [hts, hl]
    | false =>
      by_cases hn : st.nodes.length = 0
      · have hnil : st.nodes = [] := List.length_eq_zero.mp hn
        simp [hts, hl, hn, hnil]
      · have hne : st.nodes ≠ [] := fun hcc => hn (by simp [hcc])
        simp [hts, hl, hn, hne]

/-- C7: latency renders with one decimal place (the `toFixed(1)` string)
exactly when the value is strictly positive, and as the placeholder dash
otherwise; in particular 0 and -5 render as the dash and 12.345 renders
as "12.3". -/
theorem formatLatency_behavior :
    ∀ x : ℚ,
      (0 < x → formatLatency x = jsToFixedVal 1 x)
      ∧ (0 < x → formatLatency x ≠ "-")
      ∧ (x ≤ 0 → formatLatency x = "-")
      ∧ formatLatency 0 = "-"
      ∧ formatLatency (mkRat (-5) 1) = "-"
      ∧ formatLatency (mkRat 12345 1000) = "12.3" := by
  intro x
  refine ⟨fun hx => ?_, fun hx => ?_, fun hx => ?_, by decide, by decide, by decide⟩
  · unfold formatLatency
    rw [if_pos hx, jsToFixed_eq_val 1 x.num x.den x.den_pos, Rat.num_div_den]
  · unfold formatLatency
    rw [if_pos hx]
    exact jsToFixed_ne_dash 1 x.num x.den
  · unfold formatLatency
    rw [if_neg (not_lt.mpr hx)]

/-- C7 witness: the positive branch of `formatLatency_behavior` applied at
the concrete latency 7/2 ms. -/
theorem formatLatency_behavior_witness :
    formatLatency (mkRat 7 2) = jsToFixedVal 1 (mkRat 7 2) :=
  (formatLatency_behavior (mkRat 7 2)).1 (by decide)

/-- C8: the virtual-IP display keeps exactly the part of the string before
the first '/': the kept part contains no '/', the removed remainder is
empty or starts with '/', a string without '/' renders unchanged, and
"10.0.0.5/24" renders as "10.0.0.5". -/
theorem cleanIp_behavior :
    ∀ s : String,
      s.data = (cleanIp s).data ++ s.data.dropWhile (fun c => c != '/')
      ∧ (∀ c ∈ (cleanIp s).data, c ≠ '/')
      ∧ ((s.data.dropWhile (fun c => c != '/')).head? = none
          ∨ (s.data.dropWhile (fun c => c != '/')).head? = some '/')
      ∧ ('/' ∉ s.data → cleanIp s = s)
      ∧ cleanIp "10.0.0.5/24" = "10.0.0.5" := by
  intro s
  refine ⟨(List.takeWhile_append_dropWhile _ _).symm, ?_,
    dropWhile_slash_head s.data, fun h => ?_, by decide⟩
  · intro c hc
    simpa using List.mem_takeWhile_imp hc
  · cases s with
    | mk data => exact congrArg String.mk (takeWhile_slash_eq_self h)

/-- C8 witness: the no-slash conjunct of `cleanIp_behavior` applied at the
concrete address "192.168.1.9". -/
theorem cleanIp_behavior_witness :
    cleanIp "192.168.1.9" = "192.168.1.9" :=
  (cleanIp_behavior "192.168.1.9").2.2.2.1 (by decide)

/-- C9: every invocation of the refresh clears the error field before the
request is issued — the pre-request state has a null error and otherwise
unchanged fields — and every run of `fetchNodes`, failing ones included,
factors through that pre-request state. -/
theorem fetchNodes_clears_error :
    ∀ (st : DisplayState) (r : FetchResult) (now : ℕ),
      (fetchNodesStart st).error = none
      ∧ (fetchNodesStart st).nodes = st.nodes
      ∧ (fetchNodesStart st).loading = st.loading
      ∧ (fetchNodesStart st).lastUpdate = st.lastUpdate
      ∧ fetchNodes st r now = fetchNodesResolve (fetchNodesStart st) r now :=
  fun _ _ _ => ⟨rfl, rfl, rfl, rfl, rfl⟩

/-- C10: only the manual refresh handler sets the loading flag to true; the
refresh operation itself leaves the flag unchanged before resolution and
always clears it on resolution, for every way the request settles. -/
theorem loading_flag_behavior :
    ∀ (st : DisplayState) (r : FetchResult) (now : ℕ),
      (handleRefreshStart st).loading = true
      ∧ (fetchNodesStart st).loading = st.loading
      ∧ (fetchNodesResolve st r now).1.loading = false
      ∧ handleRefresh st r now = fetchNodes { st with loading := true } r now := by
  intro st r now
  refine ⟨rfl, rfl, ?_, rfl⟩
  cases r with
  | reject msg => rfl
  | resolve status body =>
    unfold fetchNodesResolve
    cases hok : respOk status with
    | false => simp [hok, failPath]
    | true =>
      cases herr : body.error != "" with
      | false => simp [hok, herr, failPath]
      | true => simp [hok, herr, failPath]
